import Mathlib

/-!
Verification of `scripts/opencv_stream.py`, a minimal MJPEG HTTP streaming
server: a capture thread reads camera frames, JPEG-encodes them and publishes
the bytes into a lock-guarded latest-frame slot (`_latest_frame`); each HTTP
connection to `GET /video` runs a send loop that repeatedly reads the slot and
writes one multipart part per non-empty frame.

The embedding below translates the script into Lean: byte strings become
`List Nat`, the slot becomes `Option (List Nat)` (where `none` is Python's
`None`), the lock-protected publish/read pairs become atomic operations of a
trace, and the unbounded `while` loops become structural recursion over the
finite list of loop inputs observed in an execution (the list ends when the
stop flag is seen false, or when the connection breaks).
-/

namespace OpencvStream

/-- Bytes of a string literal, used to embed the Python byte literals such as
`b"--frame\r\n"` as lists of byte values: every literal in the script is
ASCII, where the code points are exactly the bytes. -/
def bytesOfString (s : String) : List Nat :=
  s.data.map Char.toNat

/-! ## SharedFrameSlot: the `_latest_frame` cell (lines 18-19, 36-37, 59-60)

The cell `_latest_frame : bytes | None` starts at `None`; the capture thread
assigns it under `_frame_lock`, and each connection loop reads it under the
same lock.  Because every access happens inside the lock, an execution is an
interleaving of atomic `publish` and `read` operations on the cell. -/

/-- One atomic operation on the shared latest-frame cell: a publish by the
capture thread (line 37) or a read by some connection send loop (line 60). -/
inductive SlotOp where
  | publish : List Nat → SlotOp
  | read : SlotOp

/-- Run a sequence of slot operations from cell state `st`, with `pubs` the
frames already published before this suffix.  Each `read` records the pair
(frames published so far, value returned to the reader). -/
def slotTrace : List SlotOp → Option (List Nat) → List (List Nat) →
    List (List (List Nat) × Option (List Nat))
  | [], _, _ => []
  | SlotOp.publish f :: rest, _, pubs => slotTrace rest (some f) (pubs ++ [f])
  | SlotOp.read :: rest, st, pubs => (pubs, st) :: slotTrace rest st pubs

/-! ## Capture thread (lines 23-39) -/

/-- JPEG quality passed to `cv2.imencode` on line 35: the constant 80,
fixed for the whole process. -/
def jpegQuality : Nat := 80

/-- Pacing interval computed on line 29: `interval = 1.0 / max(fps, 1.0)`. -/
def pacingInterval (fps : ℚ) : ℚ := 1 / max fps 1

/-- Backoff slept on line 33 after a failed device read: `time.sleep(0.1)`,
i.e. 100 ms. -/
def readFailBackoff : ℚ := 1 / 10

/-- Diagnostic printed on line 27 when the camera device cannot be opened. -/
def cannotOpenMsg (device : Nat) : String :=
  "ERROR: Cannot open camera device " ++ toString device

/-- Observable outcome of a run of the capture loop: the frames published to
the shared slot in order, the sleeps performed in order, and the final value
of the slot. -/
structure CaptureRun where
  publishes : List (List Nat)
  sleeps : List ℚ
  slot : Option (List Nat)
  deriving DecidableEq

/-- The `while _running` loop of lines 30-38, over the finite list of device
read results observed while the flag stayed true (`none` embeds `ret` false,
`some raw` a successfully read raw frame).  A failed read sleeps the fixed
backoff and continues (lines 32-34); a successful read encodes the raw frame
at `jpegQuality` via the encoder `enc` (line 35), publishes the bytes to the
slot (lines 36-37), and sleeps the pacing interval (line 38). -/
def captureLoop {Raw : Type} (enc : Raw → Nat → List Nat) (interval : ℚ) :
    List (Option Raw) → Option (List Nat) → CaptureRun
  | [], slot => ⟨[], [], slot⟩
  | none :: rest, slot =>
      let r := captureLoop enc interval rest slot
      ⟨r.publishes, readFailBackoff :: r.sleeps, r.slot⟩
  | some raw :: rest, _ =>
      let buf := enc raw jpegQuality
      let r := captureLoop enc interval rest (some buf)
      ⟨buf :: r.publishes, interval :: r.sleeps, r.slot⟩

/-- `capture_thread` (lines 23-39): open the device; on failure print the
diagnostic and return without entering the loop (lines 26-28); on success run
the capture loop at `pacingInterval fps` starting from the empty slot.
`opened` embeds the result of `cap.isOpened()` for the configured device.
Returns the diagnostics printed and the capture-loop outcome. -/
def captureThread {Raw : Type} (enc : Raw → Nat → List Nat) (device : Nat)
    (opened : Bool) (fps : ℚ) (reads : List (Option Raw)) :
    List String × CaptureRun :=
  if opened then ([], captureLoop enc (pacingInterval fps) reads none)
  else ([cannotOpenMsg device], ⟨[], [], none⟩)

/-! ## HTTP handler (lines 42-68) -/

/-- Bytes written for one iteration of the send loop (lines 59-66): read the
slot under the lock; if the value is truthy (not `None` and not empty bytes)
write the multipart part `--frame\r\n`, `Content-Type: image/jpeg\r\n\r\n`,
the frame bytes, `\r\n`; otherwise write nothing this tick. -/
def sendTick (slot : Option (List Nat)) : List Nat :=
  match slot with
  | none => []
  | some f =>
      if f = [] then []
      else bytesOfString "--frame\r\n" ++
        bytesOfString "Content-Type: image/jpeg\r\n\r\n" ++ f ++
        bytesOfString "\r\n"

/-- Result of `do_GET` (lines 46-66): the status code sent, the headers
explicitly sent via `send_header` in order, and the body bytes written (the
concatenation of the loop's per-tick writes, over the slot values the
connection observed before it ended). -/
structure GetResult where
  status : Nat
  headers : List (String × String)
  body : List Nat
  deriving DecidableEq

/-- `MJPEGHandler.do_GET` (lines 46-66): any path other than `/video` gets
status 404 with no headers set and no body (lines 47-50); `/video` gets
status 200, the three explicit headers (lines 52-56), then the send loop's
output over the observed slot values `ticks`. -/
def doGET (path : String) (ticks : List (Option (List Nat))) : GetResult :=
  if path ≠ "/video" then ⟨404, [], []⟩
  else ⟨200,
    [("Content-Type", "multipart/x-mixed-replace; boundary=frame"),
     ("Access-Control-Allow-Origin", "*"),
     ("Cache-Control", "no-cache, no-store")],
    (ticks.map sendTick).flatten⟩

/-- Status code of the handler for an arbitrary request method.
`MJPEGHandler` subclasses `BaseHTTPRequestHandler` and defines only `do_GET`
(line 46); the inherited request dispatch of `http.server` answers a request
whose method `M` has no `do_M` attribute on the handler class with a
501 Unsupported method error, so only GET requests reach the code of
`do_GET`. -/
def requestStatus (method path : String) : Nat :=
  if method = "GET" then (doGET path []).status else 501

/-! ## Per-connection delivery order (lines 58-66 against 36-37)

For the monotonic-delivery claim only the publish order matters, so publishes
are numbered 1, 2, ... and the slot is abstracted to the number of the latest
publish (0 while the slot is still empty).  An execution, from one
connection's viewpoint, is an interleaving of publishes with that
connection's loop iterations (ticks); a tick sends the frame currently in the
slot, or nothing when the slot is empty. -/

/-- One event visible to a fixed connection: a publish by the capture thread,
or one iteration of this connection's send loop. -/
inductive ConnEv where
  | pub : ConnEv
  | tick : ConnEv

/-- The publish numbers of the frames a connection sends, in send order,
given the event interleaving and the number `n` of publishes that happened
before it (the slot holds publish `n`, or is empty when `n = 0`). -/
def sentFrames : List ConnEv → Nat → List Nat
  | [], _ => []
  | ConnEv.pub :: rest, n => sentFrames rest (n + 1)
  | ConnEv.tick :: rest, n =>
      if n = 0 then sentFrames rest n else n :: sentFrames rest n

/-! ## Theorems -/

/-- Invariant of `slotTrace`: a cell value that is `none` or a previously
published frame stays so across any suffix of operations, so every recorded
read obeys the same property. -/
lemma slotTrace_sound (ops : List SlotOp) :
    ∀ st pubs, (st = none ∨ ∃ f ∈ pubs, st = some f) →
      ∀ pr ∈ slotTrace ops st pubs, pr.2 = none ∨ ∃ f ∈ pr.1, pr.2 = some f := by
  induction ops with
  | nil =>
      intro st pubs _ pr hpr
      simp [slotTrace] at hpr
  | cons op rest ih =>
      intro st pubs hst pr hpr
      cases op with
      | publish f =>
          refine ih (some f) (pubs ++ [f]) (Or.inr ⟨f, by simp, rfl⟩) pr ?_
          simpa [slotTrace] using hpr
      | read =>
          rw [slotTrace] at hpr
          rcases List.mem_cons.mp hpr with h | h
          · subst h
            exact hst
          · exact ih st pubs hst pr h

/-- Claim C1: for every interleaving of publishes and reads on the shared
latest-frame slot, every read returns either the empty state (no publish yet)
or a value equal to some frame published before that read; never a value that
was never published. -/
theorem reads_return_published (ops : List SlotOp)
    (pr : List (List Nat) × Option (List Nat))
    (hpr : pr ∈ slotTrace ops none []) :
    pr.2 = none ∨ ∃ f ∈ pr.1, pr.2 = some f :=
  slotTrace_sound ops none [] (Or.inl rfl) pr hpr

/-- Claim C1 witness: in the interleaving publish [7]; read, the recorded
read returns some [7], which is among the frames published before it. -/
theorem reads_return_published_witness :
    (([[7]], some [7]) : List (List Nat) × Option (List Nat)).2 = none ∨
      ∃ f ∈ (([[7]], some [7]) : List (List Nat) × Option (List Nat)).1,
        (([[7]], some [7]) : List (List Nat) × Option (List Nat)).2 = some f :=
  reads_return_published [SlotOp.publish [7], SlotOp.read] ([[7]], some [7])
    (by simp [slotTrace])

/-- Every publish number a connection sends from a state with `n` prior
publishes is at least `n`, and the sent sequence is non-decreasing. -/
lemma sentFrames_mono (evs : List ConnEv) :
    ∀ n, (∀ x ∈ sentFrames evs n, n ≤ x) ∧
      List.Chain' (· ≤ ·) (sentFrames evs n) := by
  induction evs with
  | nil =>
      intro n
      simp [sentFrames]
  | cons ev rest ih =>
      intro n
      cases ev with
      | pub =>
          refine ⟨fun x hx => ?_, (ih (n + 1)).2⟩
          have hx' : x ∈ sentFrames rest (n + 1) := by
            simpa [sentFrames] using hx
          exact le_trans (Nat.le_succ n) ((ih (n + 1)).1 x hx')
      | tick =>
          by_cases hn : n = 0
          · subst hn
            refine ⟨fun x hx => Nat.zero_le x, ?_⟩
            simpa [sentFrames] using (ih 0).2
          · constructor
            · intro x hx
              rw [sentFrames, if_neg hn] at hx
              rcases List.mem_cons.mp hx with h | h
              · exact h ▸ le_refl n
              · exact (ih n).1 x h
            · rw [sentFrames, if_neg hn]
              refine List.chain'_cons'.mpr ⟨fun y hy => ?_, (ih n).2⟩
              exact (ih n).1 y (List.mem_of_mem_head? hy)

/-- Claim C2: for every interleaving of publishes with one connection's send
loop iterations, the publish numbers of the frames that connection sends form
a non-decreasing sequence: it never sends an earlier-published frame after a
later-published one (duplicates and gaps are permitted). -/
theorem connection_sends_monotone (evs : List ConnEv) :
    List.Chain' (· ≤ ·) (sentFrames evs 0) :=
  (sentFrames_mono evs 0).2

/-- Claim C3 counterexample: at fps = 1/2 the code computes the interval
1 / max(1/2, 1) = 1 second, which is not at least 1/fps = 2 seconds, so the
interval does not equal max(1/fps, minimum_tick) for any nonnegative tick. -/
theorem pacing_below_one_fps_counterexample :
    ¬ (1 / ((1 : ℚ) / 2) ≤ pacingInterval ((1 : ℚ) / 2)) := by
  norm_num [pacingInterval, max_def]

/-- Claim C3 (amended): the per-iteration pacing interval is 1 / max(fps, 1):
for fps at least 1 it equals 1/fps, and for fps below 1 it is capped at
1 second (so it is less than 1/fps, not at least 1/fps). -/
theorem pacing_interval_amended (fps : ℚ) (_pos : 0 < fps) :
    (1 ≤ fps → pacingInterval fps = 1 / fps) ∧
    (fps < 1 → pacingInterval fps = 1) := by
  constructor
  · intro h1
    rw [pacingInterval, max_eq_left h1]
  · intro h1
    rw [pacingInterval, max_eq_right (le_of_lt h1), div_one]

/-- Claim C3 witness: at the positive rate fps = 1/2 the amended theorem
applies and yields a pacing interval of exactly 1 second. -/
theorem pacing_interval_amended_witness :
    pacingInterval ((1 : ℚ) / 2) = 1 :=
  (pacing_interval_amended ((1 : ℚ) / 2) (by norm_num)).2 (by norm_num)

/-- Claim C4: on an iteration whose device read succeeds, the capture loop
encodes the raw frame at the fixed quality `jpegQuality = 80` (an integer at
most 100, fixed at process start), records the encoded bytes as published,
and continues with the slot holding exactly those bytes — independently of
the slot's previous content, which is replaced. -/
theorem capture_success_publishes {Raw : Type} (enc : Raw → Nat → List Nat)
    (interval : ℚ) (raw : Raw) (rest : List (Option Raw))
    (slot : Option (List Nat)) :
    captureLoop enc interval (some raw :: rest) slot =
      ⟨enc raw jpegQuality ::
          (captureLoop enc interval rest (some (enc raw jpegQuality))).publishes,
        interval ::
          (captureLoop enc interval rest (some (enc raw jpegQuality))).sleeps,
        (captureLoop enc interval rest (some (enc raw jpegQuality))).slot⟩ ∧
    jpegQuality ≤ 100 :=
  ⟨rfl, by norm_num [jpegQuality]⟩

/-- Claim C5 counterexample: a POST request to "/video" is answered with
status 501 by the inherited method dispatch, not 404. -/
theorem non_get_status_counterexample :
    requestStatus "POST" "/video" ≠ 404 := by
  decide

/-- Claim C5 (amended): a GET request whose path is not "/video" is answered
with status 404, no headers set, and an empty body; a request with any other
method never reaches `do_GET` and is answered 501 by the HTTP framework's
inherited dispatch, not 404. -/
theorem non_video_request_amended (method path : String)
    (ticks : List (Option (List Nat))) :
    (method = "GET" → path ≠ "/video" → doGET path ticks = ⟨404, [], []⟩) ∧
    (method ≠ "GET" → requestStatus method path = 501) := by
  constructor
  · intro _ hp
    unfold doGET
    rw [if_pos hp]
  · intro hm
    unfold requestStatus
    rw [if_neg hm]

/-- Claim C5 witness: a GET for "/other" gets the 404 empty response, and a
POST to "/video" gets status 501. -/
theorem non_video_request_amended_witness :
    doGET "/other" [] = ⟨404, [], []⟩ ∧ requestStatus "POST" "/video" = 501 :=
  ⟨(non_video_request_amended "GET" "/other" []).1 rfl (by decide),
   (non_video_request_amended "POST" "/video" []).2 (by decide)⟩

/-- Claim C6: a GET request for "/video" is answered with status 200 and
exactly the explicit headers Content-Type: multipart/x-mixed-replace with
boundary frame, Access-Control-Allow-Origin: *, and Cache-Control: no-cache,
no-store, set before any send-loop output is produced. -/
theorem video_response_headers (ticks : List (Option (List Nat))) :
    (doGET "/video" ticks).status = 200 ∧
    (doGET "/video" ticks).headers =
      [("Content-Type", "multipart/x-mixed-replace; boundary=frame"),
       ("Access-Control-Allow-Origin", "*"),
       ("Cache-Control", "no-cache, no-store")] :=
  ⟨rfl, rfl⟩

/-- Claim C7: on a send-loop iteration in which the slot holds a non-empty
frame, the bytes written are exactly the boundary line, the part header with
its blank line, the frame bytes, and a trailing CRLF, in that order; on an
iteration in which no frame is present, nothing is written. -/
theorem send_tick_part (f : List Nat) (h : f ≠ []) :
    sendTick (some f) =
      bytesOfString "--frame\r\n" ++
        bytesOfString "Content-Type: image/jpeg\r\n\r\n" ++ f ++
        bytesOfString "\r\n" ∧
    sendTick none = [] := by
  refine ⟨?_, rfl⟩
  simp [sendTick, h]

/-- Claim C7 witness: with the one-byte frame [255] in the slot, the tick
writes exactly the one multipart part around those bytes. -/
theorem send_tick_part_witness :
    sendTick (some [255]) =
      bytesOfString "--frame\r\n" ++
        bytesOfString "Content-Type: image/jpeg\r\n\r\n" ++ [255] ++
        bytesOfString "\r\n" ∧
    sendTick none = [] :=
  send_tick_part [255] (by decide)

/-- Claim C8: when the camera device cannot be opened, the capture thread
prints the diagnostic for that device and returns at once: no frame is ever
published, no sleep is performed, and the shared slot stays empty. -/
theorem open_failure_no_publish {Raw : Type} (enc : Raw → Nat → List Nat)
    (device : Nat) (fps : ℚ) (reads : List (Option Raw)) :
    captureThread enc device false fps reads =
      ([cannotOpenMsg device], ⟨[], [], none⟩) :=
  rfl

/-- Claim C9: on a capture-loop iteration whose device read fails, nothing is
published and the slot is untouched, the fixed backoff of 100 ms (1/10 s) is
slept, and the loop continues with the remaining iterations: a read failure
never terminates the producer. -/
theorem read_failure_backoff_continue {Raw : Type} (enc : Raw → Nat → List Nat)
    (interval : ℚ) (rest : List (Option Raw)) (slot : Option (List Nat)) :
    captureLoop enc interval (none :: rest) slot =
      ⟨(captureLoop enc interval rest slot).publishes,
        readFailBackoff :: (captureLoop enc interval rest slot).sleeps,
        (captureLoop enc interval rest slot).slot⟩ ∧
    readFailBackoff = 1 / 10 :=
  ⟨rfl, rfl⟩

/-- The boundary byte string written first in every multipart part is not
empty. -/
lemma boundary_bytes_ne_nil : bytesOfString "--frame\r\n" ≠ [] := by
  decide

/-- Claim C10: a slot holding the empty byte string is treated by the send
loop exactly like an empty slot — nothing is written that tick — and a
multipart part is written if and only if the slot holds a non-empty byte
string, because the guard tests truthiness of the bytes value. -/
theorem empty_frame_not_sent :
    sendTick (some []) = sendTick none ∧
    ∀ f : List Nat, sendTick (some f) ≠ [] ↔ f ≠ [] := by
  refine ⟨rfl, fun f => ?_⟩
  rcases eq_or_ne f [] with rfl | hf
  · simp [sendTick]
  · simp only [sendTick, if_neg hf]
    constructor
    · intro _
      exact hf
    · intro _ h
      rcases List.append_eq_nil.mp h with ⟨h1, _⟩
      rcases List.append_eq_nil.mp h1 with ⟨h2, _⟩
      rcases List.append_eq_nil.mp h2 with ⟨h3, _⟩
      exact boundary_bytes_ne_nil h3

end OpencvStream
